import Mathlib

/-!
# Verification of the Word-Translator-App core (`src/app.py`)

Shallow embedding of the translation core of `app.py`:
`TranslationPredictor.detect_language`, `TranslationPredictor.translate_text`,
the language registry lookup (`translator.languages.get(code, 'Unknown')`)
and the per-item loop of the `/api/translate_batch` handler.

Strings are modelled by Lean `String`; Python's substring test `w in s`
becomes `strContains s w`, `str.lower()` becomes `pyLower` (ASCII case
folding, as in CPython for the ASCII range), and `str.strip()` becomes
`pyStrip` (removal of surrounding whitespace).  The confidence floats
`1.0`, `0.95`, `0.7` are represented exactly as rationals.
-/

namespace WordTranslator

/-- Substring test on character lists: does `needle` occur contiguously in
the haystack?  Models Python's `needle in haystack` for strings. -/
def containsSub (needle : List Char) : List Char → Bool
  | [] => needle.isEmpty
  | c :: cs => needle.isPrefixOf (c :: cs) || containsSub needle cs

/-- Python's `needle in hay` on strings. -/
def strContains (hay needle : String) : Bool :=
  containsSub needle.data hay.data

/-- Python's `str.lower()` restricted to ASCII case folding
(all characters appearing in the program's tables are covered). -/
def pyLower (s : String) : String :=
  ⟨s.data.map Char.toLower⟩

/-- Whitespace characters removed by Python's `str.strip()`. -/
def isPySpace (c : Char) : Bool :=
  c = ' ' || c = '\t' || c = '\n' || c = '\r' || c = '\x0b' || c = '\x0c'

/-- Python's `str.strip()`: drop surrounding whitespace. -/
def pyStrip (s : String) : String :=
  ⟨((s.data.dropWhile isPySpace).reverse.dropWhile isPySpace).reverse⟩

/-- `self.languages` from `TranslationPredictor.__init__` (app.py lines 18–31). -/
def languages : List (String × String) :=
  [("en", "English"), ("es", "Spanish"), ("fr", "French"), ("de", "German"),
   ("it", "Italian"), ("pt", "Portuguese"), ("ru", "Russian"), ("zh", "Chinese"),
   ("ja", "Japanese"), ("ko", "Korean"), ("ar", "Arabic"), ("hi", "Hindi")]

/-- `translator.languages.get(code, 'Unknown')` (app.py lines 143, 180–182, 227). -/
def lookupName (code : String) : String :=
  match languages.find? (fun p => decide (p.1 = code)) with
  | some p => p.2
  | none => "Unknown"

/-- `self.mock_translations` from `TranslationPredictor.__init__`
(app.py lines 34–45). -/
def mock_translations : List ((String × String × String) × String) :=
  [(("hello", "en", "es"), "hola"),
   (("hello", "en", "fr"), "bonjour"),
   (("hello", "en", "de"), "hallo"),
   (("goodbye", "en", "es"), "adiós"),
   (("goodbye", "en", "fr"), "au revoir"),
   (("thank you", "en", "es"), "gracias"),
   (("thank you", "en", "fr"), "merci"),
   (("how are you", "en", "es"), "cómo estás"),
   (("good morning", "en", "es"), "buenos días"),
   (("good night", "en", "es"), "buenas noches")]

/-- Dictionary membership/lookup on the mock-translation table:
`self.mock_translations[mock_key]` guarded by `mock_key in self.mock_translations`. -/
def lookupMock (k : String × String × String) : Option String :=
  (mock_translations.find? (fun p => decide (p.1 = k))).map Prod.snd

/-- `english_words` (app.py line 53). -/
def english_words : List String :=
  ["the", "and", "is", "in", "to", "of", "a", "that", "it"]

/-- `spanish_words` (app.py line 54). -/
def spanish_words : List String :=
  ["el", "la", "de", "que", "y", "es", "en", "un", "ser"]

/-- `french_words` (app.py line 55); note that `"et"` occurs twice,
exactly as written in the source. -/
def french_words : List String :=
  ["le", "de", "et", "à", "un", "il", "être", "et", "en"]

/-- `sum(1 for word in words if word in text_lower)` (app.py lines 59–61):
one unit per list entry whose word is a substring of the lowered text. -/
def countWords (words : List String) (textLower : String) : Nat :=
  (words.map (fun w => if strContains textLower w then 1 else 0)).sum

/-- `TranslationPredictor.detect_language` (app.py lines 47–70). -/
def detect_language (text : String) : String :=
  let text_lower := pyLower text
  let english_count := countWords english_words text_lower
  let spanish_count := countWords spanish_words text_lower
  let french_count := countWords french_words text_lower
  if english_count > spanish_count ∧ english_count > french_count then "en"
  else if spanish_count > french_count then "es"
  else if french_count > 0 then "fr"
  else "en"

/-- The dict returned by `TranslationPredictor.translate_text`. -/
structure TranslationResult where
  translated_text : String
  confidence : ℚ
  source_lang : String
  target_lang : String
deriving DecidableEq, Repr

/-- `TranslationPredictor.translate_text` (app.py lines 72–103). -/
def translate_text (text source_lang target_lang : String) : TranslationResult :=
  if source_lang = target_lang then
    { translated_text := text, confidence := 1,
      source_lang := source_lang, target_lang := target_lang }
  else
    let text_lower := pyStrip (pyLower text)
    match lookupMock (text_lower, source_lang, target_lang) with
    | some tr =>
        { translated_text := tr, confidence := 0.95,
          source_lang := source_lang, target_lang := target_lang }
    | none =>
        { translated_text :=
            "[Translation of '" ++ text ++ "' from " ++ source_lang ++
              " to " ++ target_lang ++ "]",
          confidence := 0.7,
          source_lang := source_lang, target_lang := target_lang }

/-- One entry appended to `results` by the `/api/translate_batch` handler
(app.py lines 216–221). -/
structure BatchItem where
  original_text : String
  translated_text : String
  source_language : String
  confidence : ℚ
deriving DecidableEq, Repr

/-- The loop body of the `/api/translate_batch` handler for a single item
(app.py lines 209–221): skip if the stripped text is empty, otherwise
re-detect the source when it is the sentinel `"auto"` and resolve. -/
def batchItem (source_lang target_lang : String) (text : String) : Option BatchItem :=
  if (pyStrip text).isEmpty then none
  else
    let current_source :=
      if source_lang = "auto" then detect_language text else source_lang
    let r := translate_text text current_source target_lang
    some { original_text := text, translated_text := r.translated_text,
           source_language := current_source, confidence := r.confidence }

/-- The `results` list built by the `/api/translate_batch` handler
(app.py lines 207–221), as a recursion over the input list. -/
def translate_batch : List String → String → String → List BatchItem
  | [], _, _ => []
  | text :: rest, source_lang, target_lang =>
    if (pyStrip text).isEmpty then
      translate_batch rest source_lang target_lang
    else
      let current_source :=
        if source_lang = "auto" then detect_language text else source_lang
      let r := translate_text text current_source target_lang
      { original_text := text, translated_text := r.translated_text,
        source_language := current_source, confidence := r.confidence }
        :: translate_batch rest source_lang target_lang

/-- The spec's reading of the detector (§4.2): each language has a *set* of
function words, and the count is how many of those function words appear in
the lowered text — each distinct word contributing at most once.  Same
tie-break order as the code.  This is the spec-side definition for the
refinement comparison with `detect_language`. -/
def detect_spec (text : String) : String :=
  let text_lower := pyLower text
  let english_count := countWords english_words.dedup text_lower
  let spanish_count := countWords spanish_words.dedup text_lower
  let french_count := countWords french_words.dedup text_lower
  if english_count > spanish_count ∧ english_count > french_count then "en"
  else if spanish_count > french_count then "es"
  else if french_count > 0 then "fr"
  else "en"

/-- The French keyword list with the duplicated `"et"` entries removed. -/
def frenchWordsWithoutEt : List String :=
  ["le", "de", "à", "un", "il", "être", "en"]

/-! ### Helper lemmas -/

lemma isPrefixOf_append_self (n b : List Char) : n.isPrefixOf (n ++ b) = true := by
  induction n with
  | nil => cases b <;> rfl
  | cons c cs ih => simp [List.isPrefixOf, ih]

lemma containsSub_of_isPrefixOf {n h : List Char} (H : n.isPrefixOf h = true) :
    containsSub n h = true := by
  cases h with
  | nil =>
    cases n with
    | nil => rfl
    | cons c cs => simp [List.isPrefixOf] at H
  | cons c cs => simp [containsSub, H]

lemma containsSub_append_self (n b : List Char) : containsSub n (n ++ b) = true :=
  containsSub_of_isPrefixOf (isPrefixOf_append_self n b)

lemma containsSub_append_left (x : List Char) {n h : List Char}
    (H : containsSub n h = true) : containsSub n (x ++ h) = true := by
  induction x with
  | nil => exact H
  | cons c cs ih => simp [containsSub, ih]

lemma strContains_of_data_eq (hay needle : String) (pre post : List Char)
    (h : hay.data = pre ++ (needle.data ++ post)) : strContains hay needle = true := by
  rw [strContains, h]
  exact containsSub_append_left pre (containsSub_append_self _ _)

/-- The French keyword count splits into the count over the `"et"`-free list
plus a contribution of `2` whenever `"et"` occurs, since `"et"` is listed
twice in `french_words`. -/
lemma countWords_french_split (tl : String) :
    countWords french_words tl
      = countWords frenchWordsWithoutEt tl
          + (if strContains tl "et" then 2 else 0) := by
  simp only [countWords, french_words, frenchWordsWithoutEt, List.map_cons,
    List.map_nil, List.sum_cons, List.sum_nil]
  cases h : strContains tl "et"
  · simp [h]
  · simp [h]
    ring

/-- The French keyword count splits into the count over the deduplicated
list plus an extra `1` whenever `"et"` occurs. -/
lemma countWords_french_dedup (tl : String) :
    countWords french_words tl
      = countWords french_words.dedup tl
          + (if strContains tl "et" then 1 else 0) := by
  have hd : french_words.dedup = ["le", "de", "à", "un", "il", "être", "et", "en"] := by
    decide
  rw [hd]
  simp only [countWords, french_words, List.map_cons, List.map_nil,
    List.sum_cons, List.sum_nil]
  cases h : strContains tl "et"
  · simp [h]
  · simp [h]
    ring

/-! ### Claims -/

/-- C1 (counterexample): `detect_language` does **not** return the language
whose *set* of function words has the most members occurring in the text.
On `"the planet"` two distinct English function words (`"the"`, `"a"`) and
one distinct Spanish and one distinct French word occur, so counting
function words as a set (the claim's reading, `detect_spec`) yields `"en"`;
the code returns `"fr"` because `"et"` is listed twice in `french_words`. -/
theorem detect_language_set_count_counterexample :
    detect_language "the planet" = "fr"
    ∧ detect_spec "the planet" = "en"
    ∧ detect_language "the planet" ≠ detect_spec "the planet" := by
  refine ⟨by decide, by decide, by decide⟩

/-- C1 (amended): for every input string, `detect_language` lowercases the
text and counts, per language, how many *entries of its keyword list* are
substrings of the lowered text — equivalently, how many distinct function
words occur, except that the French count gains an extra `1` whenever
`"et"` occurs, since the French list contains `"et"` twice.  The winner is
chosen by the claimed tie-break order: `"en"` if English's count strictly
exceeds both others, else `"es"` if Spanish's count strictly exceeds
French's, else `"fr"` if French's count is positive, else `"en"`. -/
theorem detect_language_characterization (text : String) :
    detect_language text =
      (let text_lower := pyLower text
       let english_count := countWords english_words.dedup text_lower
       let spanish_count := countWords spanish_words.dedup text_lower
       let french_count := countWords french_words.dedup text_lower
                             + (if strContains text_lower "et" then 1 else 0)
       if english_count > spanish_count ∧ english_count > french_count then "en"
       else if spanish_count > french_count then "es"
       else if french_count > 0 then "fr"
       else "en") := by
  have he : english_words.dedup = english_words := by decide
  have hs : spanish_words.dedup = spanish_words := by decide
  simp only [he, hs, ← countWords_french_dedup]
  rfl

/-- C2: whenever the source and target codes coincide — whatever the text,
and even for codes outside the registry — `translate_text` returns the
original text unchanged with confidence `1.0`, never reaching the
translation-table lookup. -/
theorem translate_text_identity (text lang : String) :
    translate_text text lang lang =
      { translated_text := text, confidence := 1,
        source_lang := lang, target_lang := lang } := by
  simp [translate_text]

/-- C3: when the source and target codes differ and the normalized text
(trimmed and lowercased) together with the two codes hits the static
translation table, `translate_text` returns the stored translation with
confidence `0.95`. -/
theorem translate_text_exact_hit (text source_lang target_lang tr : String)
    (hne : source_lang ≠ target_lang)
    (hhit : lookupMock (pyStrip (pyLower text), source_lang, target_lang) = some tr) :
    translate_text text source_lang target_lang =
      { translated_text := tr, confidence := 0.95,
        source_lang := source_lang, target_lang := target_lang } := by
  simp [translate_text, hne, hhit]

/-- Witness for C3: both `"hello"` and the case/whitespace variant
`"HELLO  "` translate from `"en"` to `"es"` as `"hola"` at confidence
`0.95`. -/
theorem translate_text_exact_hit_witness :
    translate_text "hello" "en" "es" =
      { translated_text := "hola", confidence := 0.95,
        source_lang := "en", target_lang := "es" }
    ∧ translate_text "HELLO  " "en" "es" =
      { translated_text := "hola", confidence := 0.95,
        source_lang := "en", target_lang := "es" } :=
  ⟨translate_text_exact_hit "hello" "en" "es" "hola" (by decide) (by decide),
   translate_text_exact_hit "HELLO  " "en" "es" "hola" (by decide) (by decide)⟩

/-- C4: when the source and target codes differ and the normalized key
misses the translation table, `translate_text` returns confidence `0.7`
and the placeholder `"[Translation of '<text>' from <source> to <target>]"`,
which contains the original (untrimmed, original-case) text and both
language codes as literal substrings. -/
theorem translate_text_fallback (text source_lang target_lang : String)
    (hne : source_lang ≠ target_lang)
    (hmiss : lookupMock (pyStrip (pyLower text), source_lang, target_lang) = none) :
    translate_text text source_lang target_lang =
      { translated_text := "[Translation of '" ++ text ++ "' from " ++ source_lang
                             ++ " to " ++ target_lang ++ "]",
        confidence := 0.7,
        source_lang := source_lang, target_lang := target_lang }
    ∧ (translate_text text source_lang target_lang).confidence = 0.7
    ∧ strContains (translate_text text source_lang target_lang).translated_text
        text = true
    ∧ strContains (translate_text text source_lang target_lang).translated_text
        source_lang = true
    ∧ strContains (translate_text text source_lang target_lang).translated_text
        target_lang = true := by
  have heq : translate_text text source_lang target_lang =
      { translated_text := "[Translation of '" ++ text ++ "' from " ++ source_lang
                             ++ " to " ++ target_lang ++ "]",
        confidence := 0.7,
        source_lang := source_lang, target_lang := target_lang } := by
    simp [translate_text, hne, hmiss]
  refine ⟨heq, by rw [heq], ?_, ?_, ?_⟩
  · rw [heq]
    exact strContains_of_data_eq _ text "[Translation of '".data
      (("' from " ++ source_lang ++ " to " ++ target_lang ++ "]").data)
      (by simp [String.data_append, List.append_assoc])
  · rw [heq]
    exact strContains_of_data_eq _ source_lang
      (("[Translation of '" ++ text ++ "' from ").data)
      ((" to " ++ target_lang ++ "]").data)
      (by simp [String.data_append, List.append_assoc])
  · rw [heq]
    exact strContains_of_data_eq _ target_lang
      (("[Translation of '" ++ text ++ "' from " ++ source_lang ++ " to ").data)
      ("]".data)
      (by simp [String.data_append, List.append_assoc])

/-- Witness for C4: the unknown phrase `"nonexistent phrase"` from `"en"`
to `"es"` yields the placeholder at confidence `0.7`, containing the text
and both codes. -/
theorem translate_text_fallback_witness :
    translate_text "nonexistent phrase" "en" "es" =
      { translated_text := "[Translation of '" ++ "nonexistent phrase" ++ "' from "
                             ++ "en" ++ " to " ++ "es" ++ "]",
        confidence := 0.7, source_lang := "en", target_lang := "es" }
    ∧ (translate_text "nonexistent phrase" "en" "es").confidence = 0.7
    ∧ strContains (translate_text "nonexistent phrase" "en" "es").translated_text
        "nonexistent phrase" = true
    ∧ strContains (translate_text "nonexistent phrase" "en" "es").translated_text
        "en" = true
    ∧ strContains (translate_text "nonexistent phrase" "en" "es").translated_text
        "es" = true :=
  translate_text_fallback "nonexistent phrase" "en" "es" (by decide) (by decide)

/-- C5: batch resolution silently drops every item whose trimmed text is
empty — the output equals the output on the sub-list of non-empty items,
so order is preserved and no error or empty entry is produced — and the
batch `["hello", "", "goodbye"]` with fixed source `"en"` and target
`"es"` yields exactly two results, for `"hello"` then `"goodbye"`. -/
theorem translate_batch_skips_empty :
    (∀ (texts : List String) (source_lang target_lang : String),
        translate_batch texts source_lang target_lang
          = translate_batch (texts.filter (fun t => !(pyStrip t).isEmpty))
              source_lang target_lang)
    ∧ (translate_batch ["hello", "", "goodbye"] "en" "es").length = 2
    ∧ (translate_batch ["hello", "", "goodbye"] "en" "es").map
        (fun r => r.original_text) = ["hello", "goodbye"]
    ∧ (translate_batch ["hello", "", "goodbye"] "en" "es").map
        (fun r => r.translated_text) = ["hola", "adiós"] := by
  refine ⟨?_, by decide, by decide, by decide⟩
  intro texts source_lang target_lang
  induction texts with
  | nil => rfl
  | cons t ts ih =>
    by_cases h : (pyStrip t).isEmpty
    · simp [translate_batch, List.filter_cons, h, ih]
    · simp [translate_batch, List.filter_cons, h, ih]

/-- C6: batch resolution is item-wise — the output is a `filterMap` of a
per-item function, so no item's result depends on any other item — and
each produced result's source code is the detector's output on that item's
own text when the caller passed the sentinel `"auto"`, and the
caller-supplied source code unchanged otherwise. -/
theorem translate_batch_per_item (texts : List String) (source_lang target_lang : String) :
    translate_batch texts source_lang target_lang
      = texts.filterMap (batchItem source_lang target_lang)
    ∧ ∀ r ∈ translate_batch texts source_lang target_lang,
        r.source_language
          = (if source_lang = "auto" then detect_language r.original_text
             else source_lang) := by
  constructor
  · induction texts with
    | nil => rfl
    | cons t ts ih =>
      by_cases h : (pyStrip t).isEmpty
      · simp [translate_batch, batchItem, h, ih]
      · simp [translate_batch, batchItem, h, ih]
  · induction texts with
    | nil => intro r hr; cases hr
    | cons t ts ih =>
      intro r hr
      by_cases h : (pyStrip t).isEmpty
      · rw [translate_batch, if_pos h] at hr
        exact ih r hr
      · rw [translate_batch, if_neg h] at hr
        rcases List.mem_cons.mp hr with hhead | htail
        · subst hhead; rfl
        · exact ih r htail

/-- Witness for C6: in the singleton batch `["hello"]` with source
`"auto"`, the produced item's source code is the detector's output on
`"hello"` (namely `"es"`, since `"el"` occurs in `"hello"`). -/
theorem translate_batch_per_item_witness :
    ({ original_text := "hello",
       translated_text := "[Translation of 'hello' from es to fr]",
       source_language := "es", confidence := 0.7 } : BatchItem).source_language
      = (if ("auto" : String) = "auto" then detect_language "hello" else "auto") :=
  (translate_batch_per_item ["hello"] "auto" "fr").2 _ (List.Mem.head _)

/-- C7: the registry lookup is total: it returns the registered display
name on each of the twelve registered codes and `"Unknown"` on every other
string, never raising. -/
theorem lookupName_total (code : String) :
    (code ∉ languages.map Prod.fst → lookupName code = "Unknown")
    ∧ ∀ name : String, (code, name) ∈ languages → lookupName code = name := by
  constructor
  · intro h
    rw [lookupName]
    cases hf : languages.find? (fun p => decide (p.1 = code)) with
    | none => rfl
    | some p =>
      exfalso
      apply h
      have hp : p.1 = code := by simpa using List.find?_some hf
      rw [← hp]
      exact List.mem_map_of_mem Prod.fst (List.mem_of_find?_eq_some hf)
  · intro name hmem
    fin_cases hmem <;> rfl

/-- Witness for C7: the unregistered code `"xx"` yields `"Unknown"` and the
registered code `"en"` yields `"English"`. -/
theorem lookupName_total_witness :
    lookupName "xx" = "Unknown" ∧ lookupName "en" = "English" :=
  ⟨(lookupName_total "xx").1 (by decide),
   (lookupName_total "en").2 "English" (by decide)⟩

/-- C8: `detect_language` is total — on every input it returns one of the
three detectable codes — and on the empty string every per-language count
is zero, so it returns the default `"en"`. -/
theorem detect_language_total (text : String) :
    (detect_language text = "en" ∨ detect_language text = "es"
      ∨ detect_language text = "fr")
    ∧ detect_language "" = "en"
    ∧ countWords english_words (pyLower "") = 0
    ∧ countWords spanish_words (pyLower "") = 0
    ∧ countWords french_words (pyLower "") = 0 := by
  refine ⟨?_, by decide, by decide, by decide, by decide⟩
  simp only [detect_language]
  split
  · exact Or.inl rfl
  split
  · exact Or.inr (Or.inl rfl)
  split
  · exact Or.inr (Or.inr rfl)
  · exact Or.inl rfl

/-- C9: the French keyword list contains `"et"` twice, so any text whose
lowered form contains `"et"` gains `2` on the French count from those two
entries; consequently `detect_language "the planet"` returns `"fr"` even
though two distinct English function words (`"the"`, `"a"`) and only one
distinct French function word (`"et"`) occur as substrings of the text. -/
theorem french_et_counted_twice :
    french_words.count "et" = 2
    ∧ (∀ tl : String, countWords french_words tl
        = countWords frenchWordsWithoutEt tl
            + (if strContains tl "et" then 2 else 0))
    ∧ detect_language "the planet" = "fr"
    ∧ english_words.dedup.filter
        (fun w => strContains (pyLower "the planet") w) = ["the", "a"]
    ∧ french_words.dedup.filter
        (fun w => strContains (pyLower "the planet") w) = ["et"] := by
  exact ⟨by decide, countWords_french_split, by decide, by decide, by decide⟩

/-- C10: every key of the static translation table has source code `"en"`,
so for any source code other than `"en"` (and any distinct target), the
exact-match branch is unreachable and `translate_text` always returns the
placeholder fallback with confidence `0.7`. -/
theorem mock_table_en_source_only (text source_lang target_lang : String)
    (hsrc : source_lang ≠ "en") (hne : source_lang ≠ target_lang) :
    (∀ p ∈ mock_translations, p.1.2.1 = "en")
    ∧ translate_text text source_lang target_lang =
        { translated_text := "[Translation of '" ++ text ++ "' from " ++ source_lang
                               ++ " to " ++ target_lang ++ "]",
          confidence := 0.7,
          source_lang := source_lang, target_lang := target_lang }
    ∧ (translate_text text source_lang target_lang).confidence = 0.7 := by
  have hkeys : ∀ p ∈ mock_translations, p.1.2.1 = "en" := by decide
  have hmiss : lookupMock (pyStrip (pyLower text), source_lang, target_lang)
      = none := by
    have hf : mock_translations.find?
        (fun p => decide
          (p.1 = (pyStrip (pyLower text), source_lang, target_lang))) = none := by
      rw [List.find?_eq_none]
      intro p hp
      simp only [decide_eq_true_eq]
      intro hk
      apply hsrc
      have hen := hkeys p hp
      rw [hk] at hen
      exact hen
    simp [lookupMock, hf]
  have heq : translate_text text source_lang target_lang =
      { translated_text := "[Translation of '" ++ text ++ "' from " ++ source_lang
                             ++ " to " ++ target_lang ++ "]",
        confidence := 0.7,
        source_lang := source_lang, target_lang := target_lang } := by
    simp [translate_text, hne, hmiss]
  exact ⟨hkeys, heq, by rw [heq]⟩

/-- Witness for C10: translating `"hello"` from `"es"` to `"en"` — a pair
whose source is not `"en"` — falls through to the placeholder at
confidence `0.7`, even though `"hello"` is a table key for source `"en"`. -/
theorem mock_table_en_source_only_witness :
    (∀ p ∈ mock_translations, p.1.2.1 = "en")
    ∧ translate_text "hello" "es" "en" =
        { translated_text := "[Translation of '" ++ "hello" ++ "' from " ++ "es"
                               ++ " to " ++ "en" ++ "]",
          confidence := 0.7, source_lang := "es", target_lang := "en" }
    ∧ (translate_text "hello" "es" "en").confidence = 0.7 :=
  mock_table_en_source_only "hello" "es" "en" (by decide) (by decide)

end WordTranslator
